import Mathlib

/-!
Verification of the e-reg controller core (instrument protocol client plus
its worker layer) against its natural-language specification.

The Python source is shallowly embedded:
* `ereg_driver.py` (class `eReg`): the wire is modelled as a transcript of
  commands appended by `_send_query`; device responses that the setters
  consume are carried as fields of the state (`cal` is the numeric value
  that `float(self.calibration_pressure)` evaluates to, i.e. the last
  comma-separated field of the `rdc` response).  Python exceptions become
  an `Except` result.
* `polling_worker.py` (class `PollingWorker`): `doWork` becomes a function
  of the guard flag and an environment recording the outcome of each
  protocol call; Qt signal emissions become a list of events.
* `sweep_worker.py` (class `SweepWorker`): `take_step` becomes a state
  transformer emitting events; the Qt timer is a `timer_active` flag and a
  run is the n-fold iteration of ticks while the timer is active.
* `controller.py` (class `Controller`): the slots relevant to the claims
  become functions over a controller state holding the polling timer flag
  and the optional sweep worker.
* the `with self._lock` critical section of `_send_query` is modelled as a
  labelled transition system over thread phases with a reachability
  predicate, to state the mutual-exclusion property.
-/

namespace ERegCtrl

/-- Commands written to the socket by `eReg._send_query`
(`ereg_driver.py`).  The payload of `spc`/`shbc`/... is the numeric value
interpolated into the command string. -/
inductive Cmd where
  | rdc
  | spc (v : ℚ)
  | shbc (v : ℤ)
  | ssrc (v : ℤ)
  | ssc (n : ℤ)
  | sbc
  | vfc
  | voc
  deriving DecidableEq, Repr

/-- Python exceptions raised by the driver layer:
`ValueError` from the local range checks (the spec's ValidationError),
`ConnectionError` from `_send_query` when the socket is absent or faults. -/
inductive DrvErr where
  | validation
  | conn
  deriving DecidableEq, Repr

/-- State of an `eReg` instance (`ereg_driver.py`): whether `self.sock`
is set, the numeric value `float(self.calibration_pressure)` would yield
(last CSV field of the device's `rdc` response), and the transcript of
commands sent on the socket so far. -/
structure ERegSt where
  sock : Bool
  cal : ℚ
  sent : List Cmd
  deriving DecidableEq, Repr

/-- `eReg._send_query`: raises ConnectionError when `self.sock` is unset,
otherwise sends the command (appends it to the wire transcript). -/
def sendQuery (st : ERegSt) (c : Cmd) : ERegSt × Except DrvErr Unit :=
  if st.sock then ({ st with sent := st.sent ++ [c] }, .ok ())
  else (st, .error .conn)

/-- `eReg.calibration_pressure` (via the `defaults` property): one `rdc`
exchange on the wire, returning the calibration pressure parsed from the
last field of the response. -/
def fetchCalibration (st : ERegSt) : ERegSt × Except DrvErr ℚ :=
  if st.sock then ({ st with sent := st.sent ++ [Cmd.rdc] }, .ok st.cal)
  else (st, .error .conn)

/-- The `eReg.pressure` setter (`ereg_driver.py`, lines 309-332).
Python's chained comparison `0 <= value <= float(self.calibration_pressure)`
short-circuits: for `value < 0` the calibration fetch is never evaluated,
otherwise an `rdc` exchange happens before the upper-bound check.  Only a
value passing both bounds leads to sending `spc:<value>`.  (The device's
acknowledgement of `spc` is consumed after the send and cannot undo it,
so it is not modelled.) -/
def pressure_set (st : ERegSt) (v : ℚ) : ERegSt × Except DrvErr Unit :=
  if ¬ (0 ≤ v) then (st, .error .validation)
  else
    match fetchCalibration st with
    | (st1, .error e) => (st1, .error e)
    | (st1, .ok cal) =>
      if ¬ (v ≤ cal) then (st1, .error .validation)
      else sendQuery st1 (Cmd.spc v)

/-- The `eReg.heartbeat` setter (`ereg_driver.py`, lines 214-231),
embedded with the guard exactly as written in the source:
`if not 50 <= value <= 65000 or value != 0: raise ValueError(...)`,
i.e. `(¬ (50 ≤ v ∧ v ≤ 65000)) ∨ v ≠ 0`. -/
def heartbeat_set (st : ERegSt) (v : ℤ) : ERegSt × Except DrvErr Unit :=
  if ¬ (50 ≤ v ∧ v ≤ 65000) ∨ v ≠ 0 then (st, .error .validation)
  else sendQuery st (Cmd.shbc v)

/-! ### Polling worker (`polling_worker.py`) -/

/-- Kind of Python exception escaping a protocol call, as discriminated by
the `except` clauses in `PollingWorker.doWork`: a `ConnectionError`, or any
other exception. -/
inductive ExcKind where
  | conn
  | unexp
  deriving DecidableEq, Repr

/-- Outcome of the first phase of a cycle (`self.ereg.sample_rate = 10`
followed by `self.ereg.start_sampling(21)`): both succeed, the sample-rate
write raises (so `ssc:21` is never issued), or the start-sampling exchange
itself raises. -/
inductive Phase1 where
  | ok
  | srErr (k : ExcKind)
  | ssErr (k : ExcKind)
  deriving DecidableEq, Repr

/-- Environment of one `doWork` invocation: what the instrument/transport
does on each protocol call.  `buffer` is the outcome of
`self.ereg.send_buffer()` — the response string with its `sbr: ` prefix
already stripped, or an exception. -/
structure PollEnv where
  phase1 : Phase1
  buffer : Except ExcKind String
  deriving Repr

/-- Qt signals emitted by `PollingWorker` during one `doWork` call. -/
inductive PollEvent where
  | result (x : ℚ)
  | connError
  | unexpectedError
  deriving DecidableEq, Repr

/-- Python `str.split()` with no argument: split on runs of whitespace,
dropping empty tokens. -/
def tokenizeWS (cs : List Char) : List (List Char) :=
  (cs.foldr
    (fun c acc =>
      if c.isWhitespace then [] :: acc
      else
        match acc with
        | [] => [[c]]
        | t :: ts => (c :: t) :: ts)
    []).filter (fun t => !t.isEmpty)

/-- Value of a list of decimal digit characters. -/
def digitsToNat (l : List Char) : ℕ :=
  l.foldl (fun a c => 10 * a + (c.toNat - 48)) 0

/-- Python `float(token)` on the decimal forms the instrument produces
(optional sign, digits, at most one decimal point): `some` of the exact
rational value, or `none` when `float()` would raise `ValueError`.
(Exponent and inf/nan forms, which the instrument never sends, are not
modelled and map to `none`.) -/
def parseFloatChars (cs : List Char) : Option ℚ :=
  let signed : Bool × List Char :=
    match cs with
    | '-' :: rest => (true, rest)
    | '+' :: rest => (false, rest)
    | _ => (false, cs)
  let neg := signed.1
  let body := signed.2
  let mk : ℚ → Option ℚ := fun q => some (if neg then -q else q)
  let ip := body.takeWhile (fun c => c != '.')
  let rest := body.dropWhile (fun c => c != '.')
  match rest with
  | [] =>
    if ip ≠ [] ∧ ip.all Char.isDigit then mk (digitsToNat ip) else none
  | _ :: fp =>
    if fp.contains '.' then none
    else if (ip ≠ [] ∨ fp ≠ []) ∧ ip.all Char.isDigit ∧ fp.all Char.isDigit then
      mk ((digitsToNat ip : ℚ) + (digitsToNat fp : ℚ) / (10 : ℚ) ^ fp.length)
    else none

/-- Insert into a sorted list of rationals (ascending). -/
def insertQ (x : ℚ) : List ℚ → List ℚ
  | [] => [x]
  | y :: ys => if x ≤ y then x :: y :: ys else y :: insertQ x ys

/-- Ascending sort, as `sorted` does inside `statistics.median`. -/
def sortQ : List ℚ → List ℚ
  | [] => []
  | x :: xs => insertQ x (sortQ xs)

/-- `statistics.median`: middle element of the sorted list for odd length,
mean of the two middle elements for even length. -/
def median (l : List ℚ) : ℚ :=
  let s := sortQ l
  let n := l.length
  if n % 2 = 1 then s.getD (n / 2) 0
  else (s.getD (n / 2 - 1) 0 + s.getD (n / 2) 0) / 2

/-- Buffer-retrieval half of `PollingWorker.doWork` (the code after the
`if not self.working` block, reached with the guard flag set): returns the
new value of `self.working` and the emitted signals.  Mirrors the source
order: alphabetic-character check, whitespace split, empty-list check,
float parsing (a parse failure is Python `float()` raising `ValueError`,
caught by the generic `except`), then median. -/
def pollPhase2 (buffer : Except ExcKind String) : Bool × List PollEvent :=
  match buffer with
  | .error .conn => (false, [.connError])
  | .error .unexp => (false, [.unexpectedError])
  | .ok resp =>
    if resp.toList.any Char.isAlpha then (true, [])
    else
      let toks := tokenizeWS resp.toList
      if toks.isEmpty then (true, [])
      else
        match toks.mapM parseFloatChars with
        | none => (false, [.unexpectedError])
        | some vals => (false, [.result (median vals)])

/-- `PollingWorker.doWork` (`polling_worker.py`, lines 18-77): takes the
value of the `self.working` guard flag at entry and the environment,
returns the flag's value at exit and the emitted signals. -/
def pollDoWork (working : Bool) (env : PollEnv) : Bool × List PollEvent :=
  if working then pollPhase2 env.buffer
  else
    match env.phase1 with
    | .srErr .conn => (false, [.connError])
    | .srErr .unexp => (false, [.unexpectedError])
    | .ssErr .conn => (false, [.connError])
    | .ssErr .unexp => (false, [.unexpectedError])
    | .ok => pollPhase2 env.buffer

/-- Number of `ssc` (start sampling) commands issued by one `doWork` call:
none when the guard flag is set at entry (the whole start-sampling block is
skipped), none when the preceding sample-rate write raised, one otherwise
(a fault during the `ssc:21` exchange itself counts as issued). -/
def startSamplingCmds (working : Bool) (env : PollEnv) : ℕ :=
  if working then 0
  else
    match env.phase1 with
    | .srErr _ => 0
    | _ => 1

/-! ### Sweep worker (`sweep_worker.py`) -/

/-- Modelled from the spec: `convert_mbar_to_psi` is called by
`sweep_worker.py` and `controller.py` but is absent from the provided
`helpers.py` (which only contains its inverse `convert_psi_to_mbar`,
multiplication by 68.9476).  Per the spec's glossary (device units psi,
display units mBar) it is division by 68.9476. -/
def convert_mbar_to_psi (pressure : ℚ) : ℚ :=
  pressure / (689476 / 10000 : ℚ)

/-- State of a `SweepWorker` (`sweep_worker.py`): the fields assigned in
`__init__` plus a flag for whether its `QTimer` is running.  Note the
constructor's `starting_pressure` argument is stored only in
`current_pressure`; no `starting_pressure` attribute exists. -/
structure SweepSt where
  current_pressure : ℤ
  target_count : ℤ
  steps_taken : ℤ
  direction_val : ℤ
  is_running : Bool
  timer_active : Bool
  deriving DecidableEq, Repr

/-- Qt signals emitted by `SweepWorker`, plus the pressure write it makes
on the instrument (`self.ereg.pressure = ...`). -/
inductive SweepEv where
  | started (n : ℤ)
  | write (v : ℚ)
  | currentP (p : ℤ)
  | progress (n : ℤ)
  | finished
  deriving DecidableEq, Repr

/-- `SweepWorker.__init__(model, starting_pressure, span, rate, direction)`:
`direction_val` is −1 for `'H2L'` and +1 otherwise; the timer interval is
set but the timer is not yet started. -/
def SweepWorker_init (starting_pressure span : ℤ) (direction : String) : SweepSt :=
  { current_pressure := starting_pressure
    target_count := span
    steps_taken := 0
    direction_val := if direction = "H2L" then -1 else 1
    is_running := true
    timer_active := false }

/-- The timer interval `int(1000 / max(1, rate))` set in
`SweepWorker.__init__`, in milliseconds (truncating division agrees with
Python `int()` on these positive values). -/
def sweepInterval (rate : ℤ) : ℤ :=
  1000 / max 1 rate

/-- `SweepWorker.doWork`: emits `sweep_started_sig(target_count)` and
starts the timer. -/
def sweepDoWork (s : SweepSt) : SweepSt × List SweepEv :=
  ({ s with timer_active := true }, [.started s.target_count])

/-- `SweepWorker.take_step` (`sweep_worker.py`, lines 34-47): one timer
tick.  If `_is_running` is false, stop the timer and emit
`sweep_finished_sig`.  Otherwise, while `steps_taken < target_count`,
write the current pressure (converted to device units) to the instrument,
advance `current_pressure` by `direction_val`, increment `steps_taken`,
and emit the current pressure and progress signals; once the target is
reached, stop the timer and emit `sweep_finished_sig`. -/
def take_step (s : SweepSt) : SweepSt × List SweepEv :=
  if !s.is_running then ({ s with timer_active := false }, [.finished])
  else if s.steps_taken < s.target_count then
    ({ s with
        current_pressure := s.current_pressure + s.direction_val
        steps_taken := s.steps_taken + 1 },
      [.write (convert_mbar_to_psi s.current_pressure),
        .currentP (s.current_pressure + s.direction_val),
        .progress (s.steps_taken + 1)])
  else ({ s with timer_active := false }, [.finished])

/-- `SweepWorker.stop`: clears the cooperative-cancellation flag only. -/
def sweepStop (s : SweepSt) : SweepSt :=
  { s with is_running := false }

/-- `n` timer intervals elapsing: `take_step` fires on each tick as long
as the worker's timer is running; once the timer has been stopped no
further tick occurs. -/
def sweepRun : SweepSt → ℕ → SweepSt × List SweepEv
  | s, 0 => (s, [])
  | s, n + 1 =>
    if s.timer_active then
      ((sweepRun (take_step s).1 n).1,
        (take_step s).2 ++ (sweepRun (take_step s).1 n).2)
    else (s, [])

/-- Number of `sweep_finished_sig` emissions in an event list. -/
def finishedCount (l : List SweepEv) : ℕ :=
  l.countP fun e => match e with | .finished => true | _ => false

/-- Number of instrument pressure writes in an event list. -/
def writeCount (l : List SweepEv) : ℕ :=
  l.countP fun e => match e with | .write _ => true | _ => false

/-! ### Controller (`controller.py`) -/

/-- Python exceptions raised inside controller slots. -/
inductive PyErr where
  | attributeError
  deriving DecidableEq, Repr

/-- The controller state touched by the claims: the polling `QTimer`'s
running flag, the optional sweep worker (`self.sweep_worker` when the
attribute is set and truthy) with its thread's running flag, and the
main-window widgets read/written by `receive_ext_sweep_sig`
(`span_entry`, the progress bar maximum, `ext_sweep_btn`'s enabled
state). -/
structure CtrlSt where
  polling_timer_active : Bool
  sweep_worker : Option SweepSt
  sweep_thread_running : Bool
  span_entry : ℤ
  progress_max : ℤ
  ext_btn_enabled : Bool
  deriving DecidableEq, Repr

/-- `Controller.receive_conn_error_sig` (`controller.py`, lines 95-113):
stops the polling timer; then, if a sweep worker exists and its thread is
running, calls `self.sweep_worker.stop()` (cooperative cancellation).
The `except RuntimeError` branch (worker already torn down) and the view
calls are presentation-level and not modelled. -/
def receive_conn_error_sig (st : CtrlSt) : CtrlSt :=
  let st1 := { st with polling_timer_active := false }
  match st1.sweep_worker, st1.sweep_thread_running with
  | some sw, true => { st1 with sweep_worker := some (sweepStop sw) }
  | _, _ => st1

/-- `Controller.receive_unexpected_error` (`controller.py`, lines 115-124):
stops the polling timer only; the sweep worker is untouched. -/
def receive_unexpected_error (st : CtrlSt) : CtrlSt :=
  { st with polling_timer_active := false }

/-- `Controller.receive_ext_sweep_sig` (`controller.py`, lines 178-218).
When `self.sweep_worker` is truthy the handler reads
`self.sweep_worker.starting_pressure`; `SweepWorker.__init__` never
assigns a `starting_pressure` attribute (it stores its argument only in
`current_pressure`), so this attribute lookup raises `AttributeError`
before any state is mutated.  When no sweep worker is present the handler
proceeds with `direction_val = 0` and `starting_p_setting = 0`, following
the source statement by statement: the >3033 clamp (which also disables
the extend button), the low-pressure warning popup with an early return
when the user declines (`warnReply`), the <0 clamp, then the span-entry
and progress-bar updates.  `attempted_target` is computed once and not
recomputed after the first clamp, as in the source. -/
def receive_ext_sweep_sig (st : CtrlSt) (value : ℤ) (warnReply : Bool) :
    Except PyErr CtrlSt :=
  match st.sweep_worker with
  | some _ => .error .attributeError
  | none =>
    let direction_val : ℤ := 0
    let starting_p : ℤ := 0
    let current_span := st.span_entry
    let starting_target := starting_p + current_span * direction_val
    let new_span0 := current_span + value
    let attempted_target := starting_p + new_span0 * direction_val
    let b1 := attempted_target > 3033
    let st1 := if b1 then { st with ext_btn_enabled := false } else st
    let new_span1 := if b1 then 3033 - starting_p else new_span0
    let value1 := if b1 then new_span1 - current_span else value
    if starting_target ≥ 1000 ∧ attempted_target < 1000 ∧ direction_val = -1
        ∧ ¬ warnReply then
      .ok st1
    else
      let b3 := attempted_target < 0
      let st2 := if b3 then { st1 with ext_btn_enabled := false } else st1
      let new_span2 := if b3 then starting_p else new_span1
      let value2 := if b3 then value1 + attempted_target else value1
      .ok { st2 with
              span_entry := new_span2
              progress_max := st2.progress_max + value2 }

/-! ### Transport lock discipline (`eReg._send_query`, `with self._lock`)

Every command/response exchange runs the same code path: acquire
`self._lock`, `sendall` the command, `recv` the response, release the lock
(on leaving the `with` block, normally or by exception).  We model `n`
threads each repeatedly executing this path as a transition system and
prove mutual exclusion of the send/recv window. -/

/-- Position of one thread inside `_send_query`'s critical section:
outside it, holding the lock before `sendall`, or holding the lock after
`sendall` awaiting `recv`. -/
inductive XPhase where
  | idle
  | locked
  | sent
  deriving DecidableEq, Repr

/-- Global state of the Transport lock discipline for `n` threads: who
holds `self._lock` (if anyone) and where each thread stands. -/
structure LockSt (n : ℕ) where
  lock : Option (Fin n)
  phase : Fin n → XPhase

/-- Interleaving semantics of `n` threads running `_send_query`:
a thread acquires the free lock to begin an exchange, sends its command
while holding it, and receives the response and releases the lock in the
same `with` block. -/
inductive LockStep (n : ℕ) : LockSt n → LockSt n → Prop
  | acquire (s : LockSt n) (t : Fin n) :
      s.lock = none → s.phase t = .idle →
      LockStep n s ⟨some t, Function.update s.phase t .locked⟩
  | send (s : LockSt n) (t : Fin n) :
      s.lock = some t → s.phase t = .locked →
      LockStep n s ⟨s.lock, Function.update s.phase t .sent⟩
  | recvRelease (s : LockSt n) (t : Fin n) :
      s.lock = some t → s.phase t = .sent →
      LockStep n s ⟨none, Function.update s.phase t .idle⟩

/-- Initial state: the lock is free and no thread is mid-exchange. -/
def lockInit (n : ℕ) : LockSt n :=
  ⟨none, fun _ => .idle⟩

/-- States reachable from the initial state by interleaving the threads. -/
inductive LockReach (n : ℕ) : LockSt n → Prop
  | init : LockReach n (lockInit n)
  | step {s s' : LockSt n} : LockReach n s → LockStep n s s' → LockReach n s'

/-- Lock-ownership invariant: any thread that is mid-exchange (has sent or
is about to send) is the current lock holder. -/
def LockInv {n : ℕ} (s : LockSt n) : Prop :=
  ∀ t : Fin n, s.phase t ≠ .idle → s.lock = some t

/-- The sweep worker of the spec's concrete scenario: constructed with
startingPressure 1000 mBar, span 400, direction `'H2L'`, after `doWork`
has started its timer. -/
def sweepH2L : SweepSt :=
  (sweepDoWork (SweepWorker_init 1000 400 "H2L")).1

/-- Closed form of the scenario's state after `k ≤ 400` ticks. -/
def h2lState (k : ℕ) : SweepSt :=
  { current_pressure := 1000 - (k : ℤ)
    target_count := 400
    steps_taken := (k : ℤ)
    direction_val := -1
    is_running := true
    timer_active := true }

/-- Closed form of the events of the scenario's first `k ≤ 400` ticks:
tick number `k` (0-based) writes the pressure `1000 − k` converted to
device units, advances the current pressure to `1000 − k − 1`, and emits
the progress signal `k + 1`. -/
def h2lEvList : ℕ → List SweepEv
  | 0 => []
  | k + 1 =>
    h2lEvList k ++
      [.write (convert_mbar_to_psi ((1000 - (k : ℤ) : ℤ) : ℚ)),
        .currentP (1000 - (k : ℤ) - 1),
        .progress ((k : ℤ) + 1)]

/-- A concrete two-thread state of the lock model in which thread 0 has
acquired the lock and sent its command and awaits the response. -/
def lockDemo : LockSt 2 :=
  ⟨some 0,
    Function.update (Function.update (fun _ => XPhase.idle) 0 XPhase.locked)
      0 XPhase.sent⟩

/-! ### Lemmas -/

lemma lockInv_init (n : ℕ) : LockInv (lockInit n) := by
  intro t h
  simp [lockInit] at h

lemma lockInv_step {n : ℕ} {s s' : LockSt n} (hinv : LockInv s)
    (hstep : LockStep n s s') : LockInv s' := by
  cases hstep with
  | acquire t hl hp =>
    intro u hu
    simp only at hu ⊢
    rcases eq_or_ne u t with rfl | hne
    · rfl
    · rw [Function.update_noteq hne] at hu
      exact absurd (hinv u hu) (by simp [hl])
  | send t hl hp =>
    intro u hu
    simp only at hu ⊢
    rcases eq_or_ne u t with rfl | hne
    · exact hl
    · rw [Function.update_noteq hne] at hu
      exact hinv u hu
  | recvRelease t hl hp =>
    intro u hu
    simp only at hu ⊢
    rcases eq_or_ne u t with rfl | hne
    · simp [Function.update_same] at hu
    · rw [Function.update_noteq hne] at hu
      have := hinv u hu
      rw [hl] at this
      exact absurd (Option.some_injective _ this.symm) hne

lemma lockInv_reach {n : ℕ} {s : LockSt n} (h : LockReach n s) : LockInv s := by
  induction h with
  | init => exact lockInv_init n
  | step _ hstep ih => exact lockInv_step ih hstep

/-! ### Helper lemmas about sweep runs -/

lemma sweepRun_inactive (s : SweepSt) (h : s.timer_active = false) (n : ℕ) :
    sweepRun s n = (s, []) := by
  cases n <;> simp [sweepRun, h]

lemma sweepRun_add (s : SweepSt) (n m : ℕ) :
    sweepRun s (n + m) =
      ((sweepRun (sweepRun s n).1 m).1,
        (sweepRun s n).2 ++ (sweepRun (sweepRun s n).1 m).2) := by
  induction n generalizing s with
  | zero => simp [sweepRun]
  | succ n ih =>
    have hnm : n + 1 + m = (n + m) + 1 := by omega
    rw [hnm]
    by_cases h : s.timer_active
    · simp only [sweepRun, h, if_true, ih (take_step s).1, List.append_assoc]
    · have h' : s.timer_active = false := by simpa using h
      simp [sweepRun, h', sweepRun_inactive s h' m]

/-- After `stop()` is called, the very next tick emits `sweep_finished_sig`
and stops the timer, and no later tick fires: over any positive number of
further timer intervals exactly the one finished event is emitted. -/
lemma sweepRun_after_stop (s : SweepSt) (h : s.timer_active = true) (n : ℕ) :
    sweepRun (sweepStop s) (n + 1) =
      ({ s with is_running := false, timer_active := false }, [.finished]) := by
  have hstep : take_step (sweepStop s) =
      ({ s with is_running := false, timer_active := false }, [.finished]) := by
    simp [take_step, sweepStop]
  have hact : (sweepStop s).timer_active = true := h
  simp only [sweepRun, hact, if_true, hstep,
    sweepRun_inactive ({ s with is_running := false, timer_active := false }) rfl n,
    List.append_nil]

lemma take_step_h2lState (k : ℕ) (hlt : (k : ℤ) < 400) :
    take_step (h2lState k) =
      (h2lState (k + 1),
        [.write (convert_mbar_to_psi ((1000 - (k : ℤ) : ℤ) : ℚ)),
          .currentP (1000 - (k : ℤ) - 1),
          .progress ((k : ℤ) + 1)]) := by
  rw [take_step]
  simp only [h2lState, Bool.not_true, Bool.false_eq_true, if_false, hlt, if_true, if_pos hlt]
  refine Prod.ext ?_ ?_
  · simp only [SweepSt.mk.injEq]
    exact ⟨by push_cast; ring, trivial, by push_cast; ring, trivial, trivial, trivial⟩
  · simp [sub_eq_add_neg]

lemma sweepH2L_run (k : ℕ) (hk : k ≤ 400) :
    sweepRun sweepH2L k = (h2lState k, h2lEvList k) := by
  induction k with
  | zero =>
    have h0 : h2lState 0 = sweepH2L := by
      simp only [h2lState, sweepH2L, sweepDoWork, SweepWorker_init]
      norm_num
    simp [sweepRun, h0, h2lEvList]
  | succ k ih =>
    have hk' : k ≤ 400 := Nat.le_of_succ_le hk
    have hlt : (k : ℤ) < 400 := by exact_mod_cast Nat.lt_of_succ_le hk
    rw [sweepRun_add sweepH2L k 1, ih hk']
    have hact : (h2lState k).timer_active = true := rfl
    have h1 : sweepRun (h2lState k) 1 =
        (h2lState (k + 1),
          [.write (convert_mbar_to_psi ((1000 - (k : ℤ) : ℤ) : ℚ)),
            .currentP (1000 - (k : ℤ) - 1),
            .progress ((k : ℤ) + 1)]) := by
      simp only [sweepRun, hact, if_true, take_step_h2lState k hlt]
      simp
    rw [h1]
    simp [h2lEvList]

lemma lockDemo_reach : LockReach 2 lockDemo :=
  LockReach.step
    (LockReach.step LockReach.init (LockStep.acquire (lockInit 2) 0 rfl rfl))
    (LockStep.send _ 0 rfl (by simp [Function.update, lockInit]))

/-- No `sweep_finished_sig` occurs among the first 400 ticks of the
scenario run. -/
lemma finishedCount_h2lEvList (k : ℕ) : finishedCount (h2lEvList k) = 0 := by
  induction k with
  | zero => rfl
  | succ k ih =>
    rw [h2lEvList, finishedCount, List.countP_append]
    rw [finishedCount] at ih
    rw [ih]
    rfl

/-! ### Claim theorems -/

/-- C5.  The claim states the heartbeat write succeeds for `v = 0` and for
`50 ≤ v ≤ 65000` and fails with a ValidationError otherwise.  The source's
guard `not 50 <= value <= 65000 or value != 0` is a tautology, so the
setter raises `ValueError` for every integer `v` — including `0` and the
whole range 50–65000 — and never sends `shbc:<v>`: the state (in
particular the wire transcript) is returned unchanged with a validation
error. -/
theorem heartbeat_set_always_validation_error (st : ERegSt) (v : ℤ) :
    heartbeat_set st v = (st, .error .validation) := by
  rw [heartbeat_set]
  rcases eq_or_ne v 0 with rfl | hv
  · norm_num
  · simp [hv]

/-- C1 counterexample.  The claim asserts that for a setpoint value
outside `[0, CalibrationPressure]` zero bytes are sent on the wire.  On a
connected instance with calibration pressure 3000 and an empty transcript,
writing `3001` fails with a ValidationError as claimed, but the `rdc`
calibration query has already been sent on the wire (the setter re-fetches
the calibration pressure inside the bound check), so the transcript is not
empty. -/
theorem pressure_set_counterexample :
    (pressure_set ⟨true, 3000, []⟩ 3001).2 = .error .validation ∧
    (pressure_set ⟨true, 3000, []⟩ 3001).1.sent = [Cmd.rdc] := by
  constructor <;> rfl

/-- C1 (amended).  On a connected instance, a setpoint write of `v` sends
`spc:<v>` iff `0 ≤ v ≤ CalibrationPressure`, where the calibration
pressure is re-fetched from the device by an `rdc` exchange on every write
(not cached): an in-range write appends `rdc` then `spc:<v>` and succeeds;
a write of `v < 0` fails with a ValidationError with zero bytes sent (the
chained comparison short-circuits before the fetch); a write of
`v > CalibrationPressure` fails with a ValidationError without sending
`spc`, but only after the `rdc` query has gone out on the wire. -/
theorem pressure_set_range_gate (st : ERegSt) (v : ℚ) (hs : st.sock = true) :
    ((0 ≤ v ∧ v ≤ st.cal) →
      pressure_set st v =
        ({ st with sent := st.sent ++ [Cmd.rdc, Cmd.spc v] }, .ok ())) ∧
    (¬ (0 ≤ v) → pressure_set st v = (st, .error .validation)) ∧
    ((0 ≤ v ∧ ¬ (v ≤ st.cal)) →
      pressure_set st v =
        ({ st with sent := st.sent ++ [Cmd.rdc] }, .error .validation)) := by
  refine ⟨?_, ?_, ?_⟩
  · rintro ⟨h0, h1⟩
    simp [pressure_set, fetchCalibration, sendQuery, hs, h0, h1]
  · intro h0
    simp [pressure_set, h0]
  · rintro ⟨h0, h1⟩
    simp [pressure_set, fetchCalibration, sendQuery, hs, h0, h1]

/-- C1 witness: on a connected instance with calibration pressure 3000,
writing 5 sends `rdc` then `spc:5` and succeeds. -/
theorem pressure_set_range_gate_witness :
    pressure_set ⟨true, 3000, []⟩ 5 =
      (⟨true, 3000, [Cmd.rdc, Cmd.spc 5]⟩, .ok ()) :=
  (pressure_set_range_gate ⟨true, 3000, []⟩ 5 rfl).1 ⟨by norm_num, by norm_num⟩

/-- C2.  In every `doWork` cycle of the polling worker: no `ssc` (start
sampling) command is ever issued while the guard flag `self.working` is
set at entry; and on every exit path the flag's exit value is `true`
exactly on the silent (not-ready / empty-buffer) paths, where no signal is
emitted and the next tick will skip the start-sampling step — on the three
event-emitting paths (median result, ConnectionError, unexpected error)
exactly one signal is emitted and the flag is cleared. -/
theorem poll_guard_discipline (working : Bool) (env : PollEnv) :
    startSamplingCmds true env = 0 ∧
    (pollDoWork working env).1 = (pollDoWork working env).2.isEmpty ∧
    (pollDoWork working env).2.length ≤ 1 := by
  refine ⟨rfl, ?_⟩
  have hp2 : ∀ b : Except ExcKind String,
      (pollPhase2 b).1 = (pollPhase2 b).2.isEmpty ∧
        (pollPhase2 b).2.length ≤ 1 := by
    intro b
    rcases b with e | resp
    · cases e <;> simp [pollPhase2]
    · simp only [pollPhase2]
      by_cases ha : resp.toList.any Char.isAlpha = true
      · rw [if_pos ha]
        exact ⟨rfl, by norm_num⟩
      · rw [if_neg ha]
        by_cases ht : (tokenizeWS resp.toList).isEmpty = true
        · rw [if_pos ht]
          exact ⟨rfl, by norm_num⟩
        · rw [if_neg ht]
          rcases hm : (tokenizeWS resp.toList).mapM parseFloatChars with _ | vals <;>
            exact ⟨rfl, by norm_num⟩
  rcases env with ⟨p1, buf⟩
  cases working
  · rcases p1 with _ | k | k
    · simpa [pollDoWork] using hp2 buf
    · cases k <;> simp [pollDoWork]
    · cases k <;> simp [pollDoWork]
  · simpa [pollDoWork] using hp2 buf

/-- C3.  A sweep started with startingPressure 1000 mBar, span 400,
rate 2, direction `'H2L'` ticks every 500 ms; each of the first 400 ticks
writes the current pressure converted to device units, advances the
current pressure by the direction sign and increments the step counter
while emitting the progress signals (the event list `h2lEvList 400` spells
this out tick by tick); after 400 ticks `stepsTaken = 400 = targetStepCount`
and `currentPressure = 600`, with no finished event yet; the 401st tick
emits exactly one finished event and stops the timer, and no further event
ever follows. -/
theorem sweep_h2l_scenario :
    sweepInterval 2 = 500 ∧
    sweepRun sweepH2L 400 =
      ({ current_pressure := 600, target_count := 400, steps_taken := 400,
          direction_val := -1, is_running := true, timer_active := true },
        h2lEvList 400) ∧
    finishedCount (h2lEvList 400) = 0 ∧
    sweepRun sweepH2L 401 =
      ({ current_pressure := 600, target_count := 400, steps_taken := 400,
          direction_val := -1, is_running := true, timer_active := false },
        h2lEvList 400 ++ [SweepEv.finished]) ∧
    (∀ m : ℕ, sweepRun sweepH2L (401 + m) = sweepRun sweepH2L 401) := by
  have h400 : h2lState 400 =
      ({ current_pressure := 600, target_count := 400, steps_taken := 400,
          direction_val := -1, is_running := true, timer_active := true } : SweepSt) := by
    simp only [h2lState]
    norm_num
  have hrun400 : sweepRun sweepH2L 400 =
      ({ current_pressure := 600, target_count := 400, steps_taken := 400,
          direction_val := -1, is_running := true, timer_active := true }, h2lEvList 400) := by
    rw [sweepH2L_run 400 (by norm_num), h400]
  have hstep : take_step
        ({ current_pressure := 600, target_count := 400, steps_taken := 400,
            direction_val := -1, is_running := true, timer_active := true } : SweepSt) =
      ({ current_pressure := 600, target_count := 400, steps_taken := 400,
          direction_val := -1, is_running := true, timer_active := false },
        [SweepEv.finished]) := by
    rw [take_step]
    norm_num
  have h1 : sweepRun
        ({ current_pressure := 600, target_count := 400, steps_taken := 400,
            direction_val := -1, is_running := true, timer_active := true } : SweepSt) 1 =
      ({ current_pressure := 600, target_count := 400, steps_taken := 400,
          direction_val := -1, is_running := true, timer_active := false },
        [SweepEv.finished]) := by
    simp [sweepRun, hstep]
  have hrun401 : sweepRun sweepH2L 401 =
      ({ current_pressure := 600, target_count := 400, steps_taken := 400,
          direction_val := -1, is_running := true, timer_active := false },
        h2lEvList 400 ++ [SweepEv.finished]) := by
    have he : (401 : ℕ) = 400 + 1 := rfl
    rw [he, sweepRun_add sweepH2L 400 1, hrun400]
    simp [h1]
  refine ⟨by decide, hrun400, finishedCount_h2lEvList 400, hrun401, ?_⟩
  intro m
  rw [sweepRun_add sweepH2L 401 m, hrun401]
  rw [sweepRun_inactive
    ({ current_pressure := 600, target_count := 400, steps_taken := 400,
        direction_val := -1, is_running := true, timer_active := false } : SweepSt) rfl m]
  simp

/-- C4 (the code at the claim's scenario).  With a sweep worker present
(as in any running sweep), a span-extension request reads
`self.sweep_worker.starting_pressure`; `SweepWorker` never defines that
attribute, so both the claimed +50 extension and the subsequent +600
extension raise `AttributeError` instead of updating the span — no span
change, no clamping, no button-disable ever happens. -/
theorem ext_sweep_attribute_error :
    receive_ext_sweep_sig
        ⟨true, some ⟨600, 400, 400, -1, true, true⟩, true, 400, 400, true⟩ 50 true
      = .error .attributeError ∧
    receive_ext_sweep_sig
        ⟨true, some ⟨600, 400, 400, -1, true, true⟩, true, 450, 400, true⟩ 600 true
      = .error .attributeError :=
  ⟨rfl, rfl⟩

/-- C6.  `stop()` on a running sweep only clears the cooperative flag (the
in-flight tick's data — current pressure, steps taken, target — is
untouched, so that tick completes normally); the next timer tick observes
`running = false`, stops the timer, and emits the finished signal; over
any number of further timer intervals exactly one finished event is
emitted in total and no pressure write to the instrument ever follows. -/
theorem sweep_stop_cooperative (s : SweepSt) (n : ℕ)
    (h : s.timer_active = true) :
    (sweepStop s).current_pressure = s.current_pressure ∧
    (sweepStop s).steps_taken = s.steps_taken ∧
    (sweepStop s).target_count = s.target_count ∧
    sweepRun (sweepStop s) (n + 1) =
      ({ s with is_running := false, timer_active := false }, [SweepEv.finished]) ∧
    finishedCount (sweepRun (sweepStop s) (n + 1)).2 = 1 ∧
    writeCount (sweepRun (sweepStop s) (n + 1)).2 = 0 := by
  have hrun := sweepRun_after_stop s h n
  exact ⟨rfl, rfl, rfl, hrun, by rw [hrun]; rfl, by rw [hrun]; rfl⟩

/-- C6 witness: stopping a concrete mid-run sweep and letting one more
tick fire yields exactly the single finished event. -/
theorem sweep_stop_cooperative_witness :
    sweepRun (sweepStop ⟨500, 300, 100, -1, true, true⟩) 1 =
      (⟨500, 300, 100, -1, false, false⟩, [SweepEv.finished]) :=
  (sweep_stop_cooperative ⟨500, 300, 100, -1, true, true⟩ 0 rfl).2.2.2.1

/-- C7.  When the polling worker surfaces a ConnectionError, the
controller stops the polling timer and, if a sweep worker exists with its
thread running, calls its cooperative `stop()`; the stopped sweep then
reaches the finished event (exactly one) without any further instrument
write — and in particular without raising.  When the polling worker
surfaces an unexpected (non-connection) error, the controller stops the
polling timer only and the sweep worker is unaffected. -/
theorem conn_error_halts_polling_cancels_sweep
    (st : CtrlSt) (sw : SweepSt) (n : ℕ)
    (hsw : st.sweep_worker = some sw)
    (hrun : st.sweep_thread_running = true) :
    (receive_conn_error_sig st).polling_timer_active = false ∧
    (receive_conn_error_sig st).sweep_worker = some (sweepStop sw) ∧
    (sw.timer_active = true →
      finishedCount (sweepRun (sweepStop sw) (n + 1)).2 = 1 ∧
      writeCount (sweepRun (sweepStop sw) (n + 1)).2 = 0) ∧
    (receive_unexpected_error st).polling_timer_active = false ∧
    (receive_unexpected_error st).sweep_worker = st.sweep_worker := by
  refine ⟨?_, ?_, ?_, rfl, rfl⟩
  · simp [receive_conn_error_sig, hsw, hrun]
  · simp [receive_conn_error_sig, hsw, hrun]
  · intro ht
    have h1 := sweepRun_after_stop sw ht n
    exact ⟨by rw [h1]; rfl, by rw [h1]; rfl⟩

/-- C7 witness: on a concrete controller state holding a running sweep, a
connection error leads to the cancelled sweep finishing exactly once. -/
theorem conn_error_halts_polling_cancels_sweep_witness :
    finishedCount (sweepRun (sweepStop ⟨800, 200, 50, -1, true, true⟩) 1).2 = 1 :=
  ((conn_error_halts_polling_cancels_sweep
      ⟨true, some ⟨800, 200, 50, -1, true, true⟩, true, 200, 200, true⟩
      ⟨800, 200, 50, -1, true, true⟩ 0 rfl rfl).2.2.1 rfl).1

/-- C8.  In the transition system modelling `n` threads issuing
command/response exchanges through `eReg._send_query`'s
`with self._lock` block, any reachable state has at most one thread inside
an exchange (between lock acquisition and the receive that ends it): two
threads both mid-exchange are equal.  Hence a command and its response are
never interleaved with another thread's command/response pair on the
socket. -/
theorem transport_lock_mutual_exclusion {n : ℕ} (s : LockSt n)
    (hreach : LockReach n s) (t u : Fin n)
    (ht : s.phase t ≠ XPhase.idle) (hu : s.phase u ≠ XPhase.idle) :
    t = u := by
  have hinv := lockInv_reach hreach
  have h1 := hinv t ht
  have h2 := hinv u hu
  rw [h1] at h2
  exact Option.some_injective _ h2

/-- C8 witness: in the reachable two-thread state where thread 0 has sent
its command and awaits its response, any thread mid-exchange is thread 0. -/
theorem transport_lock_mutual_exclusion_witness :
    lockDemo.phase 0 ≠ XPhase.idle ∧ ((0 : Fin 2) = 0) :=
  ⟨by decide,
    transport_lock_mutual_exclusion lockDemo lockDemo_reach 0 0
      (by decide) (by decide)⟩

/-- C9.  A buffer-read response whose tokens are `10.0`, `12.0`, `11.0`
makes the polling worker emit the median `11.0` as the poll result (and
clear the guard flag). -/
theorem poll_median_example :
    pollDoWork true ⟨Phase1.ok, .ok "10.0 12.0 11.0"⟩ =
      (false, [PollEvent.result 11]) := by
  have hp1 : parseFloatChars ['1', '0', '.', '0'] = some 10 := by
    have h : parseFloatChars ['1', '0', '.', '0'] =
        some (((10 : ℕ) : ℚ) + ((0 : ℕ) : ℚ) / (10 : ℚ) ^ (1 : ℕ)) := rfl
    rw [h]
    norm_num
  have hp2 : parseFloatChars ['1', '2', '.', '0'] = some 12 := by
    have h : parseFloatChars ['1', '2', '.', '0'] =
        some (((12 : ℕ) : ℚ) + ((0 : ℕ) : ℚ) / (10 : ℚ) ^ (1 : ℕ)) := rfl
    rw [h]
    norm_num
  have hp3 : parseFloatChars ['1', '1', '.', '0'] = some 11 := by
    have h : parseFloatChars ['1', '1', '.', '0'] =
        some (((11 : ℕ) : ℚ) + ((0 : ℕ) : ℚ) / (10 : ℚ) ^ (1 : ℕ)) := rfl
    rw [h]
    norm_num
  have htok : tokenizeWS ("10.0 12.0 11.0".toList) =
      [['1', '0', '.', '0'], ['1', '2', '.', '0'], ['1', '1', '.', '0']] := by
    decide
  have hmap : (tokenizeWS ("10.0 12.0 11.0".toList)).mapM parseFloatChars =
      some [10, 12, 11] := by
    rw [htok]
    simp [List.mapM, List.mapM.loop, hp1, hp2, hp3]
  have hmedian : median [(10 : ℚ), 12, 11] = 11 := by
    norm_num [median, sortQ, insertQ]
  show pollPhase2 (.ok "10.0 12.0 11.0") = (false, [PollEvent.result 11])
  simp only [pollPhase2]
  rw [if_neg (by decide : ¬ ("10.0 12.0 11.0".toList.any Char.isAlpha = true))]
  rw [if_neg (by rw [htok]; decide :
    ¬ ((tokenizeWS ("10.0 12.0 11.0".toList)).isEmpty = true))]
  rw [hmap]
  simp [hmedian]

/-- C10.  If the buffer-read response splits (Python `str.split()`) into
an empty token list, `doWork` returns with no signal emitted, no
exception, and the guard flag still set — the median is never taken over
an empty list. -/
theorem poll_empty_buffer_silent (working : Bool) (resp : String)
    (h : tokenizeWS resp.toList = []) :
    pollDoWork working ⟨Phase1.ok, .ok resp⟩ = (true, []) := by
  have hphase : pollPhase2 (.ok resp) = (true, []) := by
    simp only [pollPhase2]
    by_cases ha : resp.toList.any Char.isAlpha = true
    · rw [if_pos ha]
    · rw [if_neg ha, if_pos (by rw [h]; rfl : (tokenizeWS resp.toList).isEmpty = true)]
  cases working <;> simpa [pollDoWork] using hphase

/-- C10 witness: an all-whitespace response has no tokens, and the tick
returns silently with the guard flag still set. -/
theorem poll_empty_buffer_silent_witness :
    tokenizeWS (" ".toList) = [] ∧
    pollDoWork true ⟨Phase1.ok, .ok " "⟩ = (true, []) :=
  ⟨by decide, poll_empty_buffer_silent true " " (by decide)⟩

end ERegCtrl
